import Mathlib

/-!
Shallow embedding of the download/conversion pipeline of the arXiv MCP
server (src/arxiv_mcp_server/tools/download.py).

The Python handler is an async function with three effect points: the HTML
fetch (httpx GET plus markdownify), the arXiv search / PDF download, and
the background subprocess conversion.  We embed it as a pure function over
an explicit state (the process-wide conversion-status registry and the
storage directory contents) together with an effect oracle that fixes the
outcome of each external call.  The result record carries, besides the
returned text-content payloads and the new state, a trace of which effects
were performed: whether the HTML fetch was attempted, whether the PDF
search/download path ran, and whether a background conversion task was
scheduled.

Timestamps (datetime.now) are abstracted as naturals supplied by the
oracle; datetime.isoformat is abstracted as an injective rendering to a
string.  json.dumps of a Python dict is abstracted as the association list
of its key/value pairs, and a types.TextContent item is identified with
that payload.
-/

namespace ArxivMcp

/-- A JSON value as it appears in the serialized status payloads:
strings, numbers, or null. -/
inductive JVal where
  | s : String → JVal
  | n : Nat → JVal
  | null : JVal
deriving DecidableEq, Repr

/-- A JSON object payload, as the association list of its keys and values
in insertion order, mirroring json.dumps of a Python dict. -/
abbrev Payload := List (String × JVal)

/-- Mirrors the ConversionStatus dataclass: the lifecycle record of one
in-flight conversion. -/
structure ConversionStatus where
  paper_id : String
  status : String
  started_at : Nat
  completed_at : Option Nat
  error : Option String
deriving DecidableEq, Repr

/-- The process-wide conversion_statuses dict, as an association list with
Python dict lookup/overwrite/pop semantics. -/
abbrev Registry := List (String × ConversionStatus)

/-- The storage directory contents: file path mapped to file size in
bytes.  Absence from the list models absence from disk. -/
abbrev Disk := List (String × Nat)

/-- Dict lookup: first binding of the key, if any. -/
def regGet (r : Registry) (k : String) : Option ConversionStatus :=
  match r with
  | [] => none
  | (k2, v) :: rest => if k2 = k then some v else regGet rest k

/-- Dict assignment: overwrite the existing binding or append a new one. -/
def regInsert (r : Registry) (k : String) (v : ConversionStatus) : Registry :=
  match r with
  | [] => [(k, v)]
  | (k2, v2) :: rest => if k2 = k then (k2, v) :: rest else (k2, v2) :: regInsert rest k v

/-- In-place mutation of the record stored under a key (a no-op when the
key is absent), modelling field assignment through a borrowed reference. -/
def regUpdate (r : Registry) (k : String) (f : ConversionStatus → ConversionStatus) : Registry :=
  match r with
  | [] => []
  | (k2, v) :: rest =>
      if k2 = k then (k2, f v) :: regUpdate rest k f else (k2, v) :: regUpdate rest k f

/-- dict.pop with a default: remove the binding if present. -/
def regPop (r : Registry) (k : String) : Registry :=
  match r with
  | [] => []
  | (k2, v) :: rest => if k2 = k then regPop rest k else (k2, v) :: regPop rest k

/-- File lookup on disk: size of the file at the path, if it exists. -/
def diskGet (d : Disk) (p : String) : Option Nat :=
  match d with
  | [] => none
  | (p2, v) :: rest => if p2 = p then some v else diskGet rest p

/-- Writing a file: overwrite the existing entry or create a new one. -/
def diskInsert (d : Disk) (p : String) (sz : Nat) : Disk :=
  match d with
  | [] => [(p, sz)]
  | (p2, v2) :: rest => if p2 = p then (p2, sz) :: rest else (p2, v2) :: diskInsert rest p sz

/-- Path.unlink with missing_ok=True: remove the file if present, silently
succeed otherwise. -/
def diskRemove (d : Disk) (p : String) : Disk :=
  match d with
  | [] => []
  | (p2, v) :: rest => if p2 = p then diskRemove rest p else (p2, v) :: diskRemove rest p

/-- The state shared by the handler and the converter: the configured
storage root, the conversion-status registry, and the disk. -/
structure State where
  storage : String
  registry : Registry
  disk : Disk
deriving DecidableEq, Repr

/-- Mirrors get_paper_path: storage root joined with paper_id and suffix.
The mkdir side effect (ensuring the root exists) has no observable impact
on the modelled state and is dropped. -/
def get_paper_path (storage paper_id suffix : String) : String :=
  storage ++ "/" ++ paper_id ++ suffix

/-- Abstraction of datetime.isoformat on the abstract timestamps. -/
def isoformat (t : Nat) : String := toString t

/-- Serialization of an optional timestamp: isoformat or JSON null. -/
def optIso : Option Nat → JVal
  | none => JVal.null
  | some t => JVal.s (isoformat t)

/-- Serialization of an optional string: itself or JSON null. -/
def optStr : Option String → JVal
  | none => JVal.null
  | some v => JVal.s v

/-- Outcome of fetch_html_as_markdown as fixed by the oracle: success
(writing a markdown file of the given size), an httpx.HTTPStatusError with
the response status code, or any other exception with its message. -/
inductive HtmlOutcome where
  | ok : Nat → HtmlOutcome
  | httpError : Nat → HtmlOutcome
  | otherError : String → HtmlOutcome
deriving DecidableEq, Repr

/-- Outcome of paper.download_pdf as fixed by the oracle: a PDF of the
given size written to the requested path, or an exception message. -/
inductive PdfOutcome where
  | ok : Nat → PdfOutcome
  | err : String → PdfOutcome
deriving DecidableEq, Repr

/-- The effect oracle for one handle_download invocation: the HTML fetch
outcome, the current time, whether the arXiv search yields a result
(next raises StopIteration otherwise), and the PDF download outcome. -/
structure Env where
  html : HtmlOutcome
  now : Nat
  searchFound : Bool
  pdfDownload : PdfOutcome
deriving DecidableEq, Repr

/-- The arguments dict: paper_id is none when the key is missing (the
KeyError then reaches the top-level handler); check_status and format
carry their dict.get defaults (False and "auto") already applied. -/
structure Args where
  paper_id : Option String
  check_status : Bool
  fmt : String
deriving DecidableEq, Repr

/-- The observable result of one handle_download invocation: the returned
text-content payloads, the final registry and disk, and the effect trace
(HTML fetch attempted; PDF search/download path ran; background conversion
task scheduled for a paper id). -/
structure HandleResult where
  responses : List Payload
  registry : Registry
  disk : Disk
  htmlFetched : Bool
  pdfFetched : Bool
  scheduled : Option String
deriving DecidableEq, Repr

/-- Payload of the check_status branch when the paper is on disk. -/
def readyPayload (md_path : String) : Payload :=
  [("status", JVal.s "success"),
   ("message", JVal.s "Paper is ready"),
   ("resource_uri", JVal.s ("file://" ++ md_path))]

/-- Payload of the check_status branch when nothing is known. -/
def unknownPayload : Payload :=
  [("status", JVal.s "unknown"),
   ("message", JVal.s "No download or conversion in progress")]

/-- Payload serializing a registry record on a check_status request. -/
def statusPayload (cs : ConversionStatus) : Payload :=
  [("status", JVal.s cs.status),
   ("started_at", JVal.s (isoformat cs.started_at)),
   ("completed_at", optIso cs.completed_at),
   ("error", optStr cs.error),
   ("message", JVal.s ("Paper conversion " ++ cs.status))]

/-- Payload when the markdown artifact is already on disk. -/
def alreadyPayload (md_path : String) : Payload :=
  [("status", JVal.s "success"),
   ("message", JVal.s "Paper already available"),
   ("resource_uri", JVal.s ("file://" ++ md_path))]

/-- Payload reporting an in-flight registry record to a new-download
request. -/
def inProgressPayload (cs : ConversionStatus) : Payload :=
  [("status", JVal.s cs.status),
   ("message", JVal.s ("Paper conversion " ++ cs.status)),
   ("started_at", JVal.s (isoformat cs.started_at))]

/-- Payload after a successful HTML fetch. -/
def htmlSuccessPayload (md_path : String) : Payload :=
  [("status", JVal.s "success"),
   ("message", JVal.s "Paper downloaded from HTML"),
   ("resource_uri", JVal.s ("file://" ++ md_path))]

/-- Payload when format is html and the fetch fails with an HTTP status
error: the numeric status code is embedded in the message. -/
def htmlHttpErrorPayload (code : Nat) : Payload :=
  [("status", JVal.s "error"),
   ("message", JVal.s ("HTML version not available (HTTP " ++ toString code ++ ")"))]

/-- Payload when format is html and the fetch fails with any other
exception. -/
def htmlFailPayload (msg : String) : Payload :=
  [("status", JVal.s "error"),
   ("message", JVal.s ("HTML download failed: " ++ msg))]

/-- Payload when the PDF was downloaded and conversion was scheduled. -/
def convertingPayload (started_at : Nat) : Payload :=
  [("status", JVal.s "converting"),
   ("message", JVal.s "Paper downloaded, conversion started"),
   ("started_at", JVal.s (isoformat started_at))]

/-- Payload of the StopIteration branch: empty arXiv search result. -/
def notFoundPayload (paper_id : String) : Payload :=
  [("status", JVal.s "error"),
   ("message", JVal.s ("Paper " ++ paper_id ++ " not found on arXiv"))]

/-- Payload of the top-level generic exception branch. -/
def genericErrorPayload (msg : String) : Payload :=
  [("status", JVal.s "error"),
   ("message", JVal.s ("Error: " ++ msg))]

/-- A result that returns payloads and leaves state untouched with no
effects performed. -/
def noEffects (ps : List Payload) (st : State) : HandleResult :=
  HandleResult.mk ps st.registry st.disk false false none

/-- The PDF download path of handle_download (reached for format pdf, or
auto after an HTML failure): insert a downloading registry record, search
arXiv (StopIteration when empty), download the PDF, flip the record to
converting, and schedule the background conversion.  A download exception
reaches the top-level generic handler; in both failure branches the
freshly inserted registry record is left behind. -/
def pdfPhase (paper_id : String) (env : Env) (st : State) (htmlFetched : Bool) : HandleResult :=
  let pdf_path := get_paper_path st.storage paper_id ".pdf"
  let reg1 := regInsert st.registry paper_id
    (ConversionStatus.mk paper_id "downloading" env.now none none)
  if env.searchFound then
    match env.pdfDownload with
    | PdfOutcome.err msg =>
        HandleResult.mk [genericErrorPayload msg] reg1 st.disk htmlFetched true none
    | PdfOutcome.ok size =>
        let disk1 := diskInsert st.disk pdf_path size
        let reg2 := regUpdate reg1 paper_id (fun s => { s with status := "converting" })
        HandleResult.mk [convertingPayload env.now] reg2 disk1 htmlFetched true (some paper_id)
  else
    HandleResult.mk [notFoundPayload paper_id] reg1 st.disk htmlFetched true none

/-- Embedding of handle_download: branch for branch the Python handler.
check_status consults the registry first and falls back to disk; a new
request consults disk first, then the registry, then starts the
HTML-then-PDF pipeline according to the format argument. -/
def handle_download (args : Args) (env : Env) (st : State) : HandleResult :=
  match args.paper_id with
  | none => noEffects [genericErrorPayload "\x27paper_id\x27"] st
  | some paper_id =>
    let md_path := get_paper_path st.storage paper_id ".md"
    if args.check_status then
      match regGet st.registry paper_id with
      | none =>
          if (diskGet st.disk md_path).isSome then
            noEffects [readyPayload md_path] st
          else
            noEffects [unknownPayload] st
      | some status => noEffects [statusPayload status] st
    else
      if (diskGet st.disk md_path).isSome then
        noEffects [alreadyPayload md_path] st
      else
        match regGet st.registry paper_id with
        | some status => noEffects [inProgressPayload status] st
        | none =>
          if args.fmt = "auto" ∨ args.fmt = "html" then
            match env.html with
            | HtmlOutcome.ok size =>
                HandleResult.mk [htmlSuccessPayload md_path] st.registry
                  (diskInsert st.disk md_path size) true false none
            | HtmlOutcome.httpError code =>
                if args.fmt = "html" then
                  HandleResult.mk [htmlHttpErrorPayload code] st.registry st.disk true false none
                else
                  pdfPhase paper_id env st true
            | HtmlOutcome.otherError msg =>
                if args.fmt = "html" then
                  HandleResult.mk [htmlFailPayload msg] st.registry st.disk true false none
                else
                  pdfPhase paper_id env st true
          else
            pdfPhase paper_id env st false

/-- A completed subprocess.run: exit code, captured (stripped) stderr, and
the output file the tool wrote, as an optional size (none when the tool
wrote nothing). -/
structure SubRun where
  returncode : Int
  stderr : String
  output : Option Nat
deriving DecidableEq, Repr

/-- Outcome of subprocess.run as fixed by the oracle: it either raised
(for example TimeoutExpired) with the given message, or completed. -/
inductive RunOutcome where
  | raised : String → RunOutcome
  | completed : SubRun → RunOutcome
deriving DecidableEq, Repr

/-- The effect oracle for one convert_pdf_to_markdown invocation: whether
shutil.which finds the unpdf binary, the subprocess outcome, and the
current time. -/
structure ConvEnv where
  unpdfFound : Bool
  run : RunOutcome
  now : Nat
deriving DecidableEq, Repr

/-- The observable result of one convert_pdf_to_markdown invocation.
regBeforeCleanup is the registry after the try/except body, before the
unconditional pop in the finally clause; registry is the final registry;
pdfDeleted records whether the success-branch unlink of the source PDF
executed. -/
structure ConvResult where
  regBeforeCleanup : Registry
  registry : Registry
  disk : Disk
  pdfDeleted : Bool
deriving DecidableEq, Repr

/-- The except-branch mutation: if the record is present, set its status
to error with the message and a completion timestamp. -/
def setError (reg : Registry) (paper_id msg : String) (now : Nat) : Registry :=
  regUpdate reg paper_id
    (fun s => { s with status := "error", completed_at := some now, error := some msg })

/-- The success mutation: if the record is present, set its status to
success with a completion timestamp. -/
def setSuccess (reg : Registry) (paper_id : String) (now : Nat) : Registry :=
  regUpdate reg paper_id (fun s => { s with status := "success", completed_at := some now })

/-- The disk effect of the completed subprocess: the output file it wrote,
if any, lands at the markdown path. -/
def applyRunOutput (d : Disk) (md_path : String) : Option Nat → Disk
  | none => d
  | some size => diskInsert d md_path size

/-- The try/except body of convert_pdf_to_markdown: registry after the
body, disk after the body, and whether the source PDF was unlinked.
Mirrors the Python checks in order: binary present, subprocess completed,
exit code zero, output file present and non-empty; every failure is caught
and recorded through setError. -/
def convertBody (paper_id pdf_path : String) (env : ConvEnv) (st : State) :
    Registry × Disk × Bool :=
  let md_path := get_paper_path st.storage paper_id ".md"
  if env.unpdfFound = false then
    (setError st.registry paper_id "unpdf binary not found on PATH" env.now, st.disk, false)
  else
    match env.run with
    | RunOutcome.raised msg =>
        (setError st.registry paper_id msg env.now, st.disk, false)
    | RunOutcome.completed r =>
        let disk1 := applyRunOutput st.disk md_path r.output
        if r.returncode ≠ 0 then
          (setError st.registry paper_id
            ("unpdf exited " ++ toString r.returncode ++ ": " ++ r.stderr) env.now, disk1, false)
        else
          match diskGet disk1 md_path with
          | none =>
              (setError st.registry paper_id "unpdf produced no output" env.now, disk1, false)
          | some size =>
              if size = 0 then
                (setError st.registry paper_id "unpdf produced no output" env.now, disk1, false)
              else
                (setSuccess st.registry paper_id env.now, diskRemove disk1 pdf_path, true)

/-- Embedding of convert_pdf_to_markdown: the try/except body followed by
the finally clause, which unconditionally pops the registry entry. -/
def convert_pdf_to_markdown (paper_id pdf_path : String) (env : ConvEnv) (st : State) :
    ConvResult :=
  let body := convertBody paper_id pdf_path env st
  ConvResult.mk body.1 (regPop body.1 paper_id) body.2.1 body.2.2

/-- Whether a payload object carries the given key. -/
def hasKey (p : Payload) (k : String) : Bool :=
  p.any (fun q => q.1 == k)

/-- First value stored under a key in a payload object. -/
def getVal (p : Payload) (k : String) : Option JVal :=
  match p with
  | [] => none
  | (k2, v) :: rest => if k2 = k then some v else getVal rest k

/-! Concrete fixtures used by the witnesses and counterexamples. -/

/-- A registry record in the downloading state, for witnesses. -/
def cs0 : ConversionStatus := ConversionStatus.mk "p1" "downloading" 5 none none

/-- An oracle whose HTML fetch 404s and whose PDF path succeeds. -/
def env0 : Env := Env.mk (HtmlOutcome.httpError 404) 9 true (PdfOutcome.ok 3)

/-- A state whose registry holds cs0 and whose disk is empty. -/
def st1 : State := State.mk "root" [("p1", cs0)] []

/-- A plain new-download request for p1 with format auto. -/
def args1 : Args := Args.mk (some "p1") false "auto"

/-! Claim theorems. -/

/-- C1: for a new-download request (check_status false) whose paper_id is
already a key of the conversion-status registry and whose markdown
artifact does not exist on disk, handle_download returns that entry's
current status together with its started_at, leaves the registry and disk
untouched, performs no HTML fetch and no PDF download, and schedules no
conversion task. -/
theorem handle_download_in_flight_no_duplicate
    (args : Args) (env : Env) (st : State) (pid : String) (cs : ConversionStatus)
    (hpid : args.paper_id = some pid)
    (hcs : args.check_status = false)
    (hreg : regGet st.registry pid = some cs)
    (hmd : diskGet st.disk (get_paper_path st.storage pid ".md") = none) :
    handle_download args env st =
      HandleResult.mk [inProgressPayload cs] st.registry st.disk false false none := by
  simp [handle_download, hpid, hcs, hreg, hmd, noEffects]

/-- Witness for C1 at a concrete state whose registry holds a downloading
record for p1 and whose disk is empty. -/
theorem handle_download_in_flight_no_duplicate_witness :
    handle_download args1 env0 st1 =
      HandleResult.mk [inProgressPayload cs0] st1.registry st1.disk false false none :=
  handle_download_in_flight_no_duplicate args1 env0 st1 "p1" cs0 rfl rfl rfl rfl

/-- C2: for a new-download request (check_status false) whose resolved
markdown file exists on disk, handle_download returns success with the
resource_uri of that file, performs no HTML fetch, no PDF download and no
conversion scheduling, leaves the registry and the disk unchanged; and a
second call with the same arguments, under any oracle, returns the very
same result. -/
theorem handle_download_cached_idempotent
    (args : Args) (env : Env) (st : State) (pid : String) (sz : Nat)
    (hpid : args.paper_id = some pid)
    (hcs : args.check_status = false)
    (hmd : diskGet st.disk (get_paper_path st.storage pid ".md") = some sz) :
    handle_download args env st =
      HandleResult.mk [alreadyPayload (get_paper_path st.storage pid ".md")]
        st.registry st.disk false false none
    ∧ ∀ env2 : Env, handle_download args env2 st = handle_download args env st := by
  constructor
  · simp [handle_download, hpid, hcs, hmd, noEffects]
  · intro env2
    simp [handle_download, hpid, hcs, hmd, noEffects]

/-- A state holding only the markdown artifact for p1 on disk. -/
def st2 : State := State.mk "root" [] [("root/p1.md", 11)]

/-- Witness for C2 at a concrete state whose disk holds the markdown
artifact for p1. -/
theorem handle_download_cached_idempotent_witness :
    (handle_download args1 env0 st2 =
      HandleResult.mk [alreadyPayload (get_paper_path st2.storage "p1" ".md")]
        st2.registry st2.disk false false none)
    ∧ ∀ env2 : Env, handle_download args1 env2 st2 = handle_download args1 env0 st2 :=
  handle_download_cached_idempotent args1 env0 st2 "p1" 11 rfl rfl rfl

/-- C3: on a fresh request (no markdown artifact, no registry entry),
format html never reaches the PDF path: it performs no PDF download and
schedules nothing, returns the error payload embedding the numeric HTTP
code on an HTTP status error, and the plain error payload on any other
HTML failure.  Format pdf performs no HTML fetch.  Format auto attempts
the HTML fetch first and on any HTML failure, HTTP status error or other
exception alike, the invocation is exactly the PDF phase. -/
theorem handle_download_format_contract
    (args : Args) (env : Env) (st : State) (pid : String)
    (hpid : args.paper_id = some pid)
    (hcs : args.check_status = false)
    (hmd : diskGet st.disk (get_paper_path st.storage pid ".md") = none)
    (hreg : regGet st.registry pid = none) :
    (args.fmt = "html" →
      (handle_download args env st).pdfFetched = false
      ∧ (handle_download args env st).scheduled = none
      ∧ (∀ code, env.html = HtmlOutcome.httpError code →
          (handle_download args env st).responses = [htmlHttpErrorPayload code])
      ∧ (∀ msg, env.html = HtmlOutcome.otherError msg →
          (handle_download args env st).responses = [htmlFailPayload msg]))
    ∧ (args.fmt = "pdf" → (handle_download args env st).htmlFetched = false)
    ∧ (args.fmt = "auto" →
      (handle_download args env st).htmlFetched = true
      ∧ (∀ code, env.html = HtmlOutcome.httpError code →
          handle_download args env st = pdfPhase pid env st true)
      ∧ (∀ msg, env.html = HtmlOutcome.otherError msg →
          handle_download args env st = pdfPhase pid env st true)) := by
  refine ⟨?_, ?_, ?_⟩ <;> intro hf
  · cases henv : env.html <;>
      simp [handle_download, hpid, hcs, hmd, hreg, hf, henv]
  · cases hs : env.searchFound <;> cases hp : env.pdfDownload <;>
      simp [handle_download, pdfPhase, hpid, hcs, hmd, hreg, hf, hs, hp]
  · cases henv : env.html <;>
      cases hsf : env.searchFound <;>
      cases hpo : env.pdfDownload <;>
      simp [handle_download, pdfPhase, hpid, hcs, hmd, hreg, hf, henv, hsf, hpo]

/-- A fresh state: empty registry, empty disk. -/
def st0 : State := State.mk "root" [] []

/-- Witness for C3 at a fresh state, format auto, with the oracle whose
HTML fetch 404s: the HTML fetch is attempted and the invocation equals
the PDF phase. -/
theorem handle_download_format_contract_witness :
    (handle_download args1 env0 st0).htmlFetched = true
    ∧ (∀ code, env0.html = HtmlOutcome.httpError code →
        handle_download args1 env0 st0 = pdfPhase "p1" env0 st0 true)
    ∧ (∀ msg, env0.html = HtmlOutcome.otherError msg →
        handle_download args1 env0 st0 = pdfPhase "p1" env0 st0 true) :=
  (handle_download_format_contract args1 env0 st0 "p1" rfl rfl rfl rfl).2.2 rfl

/-- C4: handle_download is total and its payloads are uniformly shaped:
for every arguments record, oracle and state, it returns exactly one text
content item whose payload carries at least the keys status and message;
a missing paper_id key surfaces as the generic error payload with the
KeyError text, and a PDF download exception in the PDF phase surfaces as
the generic error payload with the exception message. -/
theorem handle_download_total_payload_shape
    (args : Args) (env : Env) (st : State) :
    (handle_download args env st).responses.length = 1
    ∧ (∀ p ∈ (handle_download args env st).responses,
        hasKey p "status" = true ∧ hasKey p "message" = true)
    ∧ (args.paper_id = none →
        (handle_download args env st).responses = [genericErrorPayload "\x27paper_id\x27"])
    ∧ (∀ (pid2 : String) (hF : Bool) (msg : String),
        env.searchFound = true → env.pdfDownload = PdfOutcome.err msg →
        (pdfPhase pid2 env st hF).responses = [genericErrorPayload msg]) := by
  obtain ⟨opid, cst, fmt⟩ := args
  have hpdf : ∀ (pid2 : String) (hF : Bool), ∃ x,
      (pdfPhase pid2 env st hF).responses = [x]
      ∧ hasKey x "status" = true ∧ hasKey x "message" = true := by
    intro pid2 hF
    cases hs : env.searchFound
    · exact ⟨notFoundPayload pid2, by simp [pdfPhase, hs], rfl, rfl⟩
    · cases hp : env.pdfDownload with
      | err msg => exact ⟨genericErrorPayload msg, by simp [pdfPhase, hs, hp], rfl, rfl⟩
      | ok size => exact ⟨convertingPayload env.now, by simp [pdfPhase, hs, hp], rfl, rfl⟩
  have hmain : ∃ x, (handle_download (Args.mk opid cst fmt) env st).responses = [x]
      ∧ hasKey x "status" = true ∧ hasKey x "message" = true := by
    cases opid with
    | none => exact ⟨genericErrorPayload "\x27paper_id\x27", rfl, rfl, rfl⟩
    | some pid =>
      cases cst with
      | true =>
        cases hr : regGet st.registry pid with
        | some cs =>
            exact ⟨statusPayload cs, by simp [handle_download, noEffects, hr], rfl, rfl⟩
        | none =>
            cases hd : diskGet st.disk (get_paper_path st.storage pid ".md") with
            | some sz =>
                exact ⟨readyPayload (get_paper_path st.storage pid ".md"),
                  by simp [handle_download, noEffects, hr, hd], rfl, rfl⟩
            | none =>
                exact ⟨unknownPayload, by simp [handle_download, noEffects, hr, hd], rfl, rfl⟩
      | false =>
        cases hd : diskGet st.disk (get_paper_path st.storage pid ".md") with
        | some sz =>
            exact ⟨alreadyPayload (get_paper_path st.storage pid ".md"),
              by simp [handle_download, noEffects, hd], rfl, rfl⟩
        | none =>
          cases hr : regGet st.registry pid with
          | some cs =>
              exact ⟨inProgressPayload cs, by simp [handle_download, noEffects, hd, hr], rfl, rfl⟩
          | none =>
            by_cases hf : fmt = "auto" ∨ fmt = "html"
            · cases hh : env.html with
              | ok size =>
                  exact ⟨htmlSuccessPayload (get_paper_path st.storage pid ".md"),
                    by simp [handle_download, hd, hr, hf, hh], rfl, rfl⟩
              | httpError code =>
                by_cases hfh : fmt = "html"
                · exact ⟨htmlHttpErrorPayload code,
                    by simp [handle_download, hd, hr, hf, hfh, hh], rfl, rfl⟩
                · obtain ⟨x, hx, h1, h2⟩ := hpdf pid true
                  have hfa : fmt = "auto" := hf.resolve_right hfh
                  exact ⟨x, by simp [handle_download, hd, hr, hfa, hh, hx], h1, h2⟩
              | otherError msg =>
                by_cases hfh : fmt = "html"
                · exact ⟨htmlFailPayload msg,
                    by simp [handle_download, hd, hr, hf, hfh, hh], rfl, rfl⟩
                · obtain ⟨x, hx, h1, h2⟩ := hpdf pid true
                  have hfa : fmt = "auto" := hf.resolve_right hfh
                  exact ⟨x, by simp [handle_download, hd, hr, hfa, hh, hx], h1, h2⟩
            · obtain ⟨x, hx, h1, h2⟩ := hpdf pid false
              exact ⟨x, by simp [handle_download, hd, hr, hf, hx], h1, h2⟩
  obtain ⟨x, hx, hs, hm⟩ := hmain
  refine ⟨by rw [hx]; rfl, ?_, ?_, ?_⟩
  · intro p hp
    rw [hx] at hp
    simp only [List.mem_singleton] at hp
    subst hp
    exact ⟨hs, hm⟩
  · intro hnone
    subst hnone
    rfl
  · intro pid2 hF msg hsf hp
    simp [pdfPhase, hsf, hp]

/-- Witness for C4 at a concrete request whose arguments dict lacks the
paper_id key. -/
theorem handle_download_total_payload_shape_witness :
    (handle_download (Args.mk none false "auto") env0 st0).responses.length = 1
    ∧ (handle_download (Args.mk none false "auto") env0 st0).responses
        = [genericErrorPayload "\x27paper_id\x27"] :=
  ⟨(handle_download_total_payload_shape (Args.mk none false "auto") env0 st0).1,
   (handle_download_total_payload_shape (Args.mk none false "auto") env0 st0).2.2.1 rfl⟩

/-- A registry record in the converting state, for the C5 counterexample. -/
def cs1 : ConversionStatus := ConversionStatus.mk "p2" "converting" 3 none none

/-- A state with both a non-terminal registry record for p2 and the
markdown artifact for p2 on disk. -/
def st3 : State := State.mk "root" [("p2", cs1)] [("root/p2.md", 7)]

/-- A check_status request for p2. -/
def argsCheck : Args := Args.mk (some "p2") true "auto"

/-- C5 counterexample: the claim says a check_status request consults the
on-disk markdown artifact first, so a state holding both the artifact and
a non-terminal registry record would report the terminal disk truth; the
code consults the registry first and reports the in-flight record, not
success. -/
theorem check_status_disk_first_counterexample :
    diskGet st3.disk (get_paper_path st3.storage "p2" ".md") = some 7
    ∧ regGet st3.registry "p2" = some cs1
    ∧ cs1.status = "converting"
    ∧ (handle_download argsCheck env0 st3).responses = [statusPayload cs1]
    ∧ getVal (statusPayload cs1) "status" = some (JVal.s "converting")
    ∧ (handle_download argsCheck env0 st3).responses
        ≠ [readyPayload (get_paper_path st3.storage "p2" ".md")] := by
  refine ⟨rfl, rfl, rfl, rfl, rfl, ?_⟩
  decide

/-- C5 (amended): the two authority orders are opposite on the two paths.
A check_status request consults the registry first: a present entry is
reported as-is even when the markdown artifact exists on disk, and only
with no entry does the disk decide between success and unknown.  A
new-download request consults the disk first: an existing markdown
artifact is reported as success regardless of the registry. -/
theorem handle_download_poll_authority
    (args : Args) (env : Env) (st : State) (pid : String)
    (hpid : args.paper_id = some pid) :
    (args.check_status = true →
      (∀ cs, regGet st.registry pid = some cs →
        (handle_download args env st).responses = [statusPayload cs])
      ∧ (regGet st.registry pid = none →
          (handle_download args env st).responses =
            if (diskGet st.disk (get_paper_path st.storage pid ".md")).isSome then
              [readyPayload (get_paper_path st.storage pid ".md")]
            else [unknownPayload]))
    ∧ (args.check_status = false →
      ∀ sz, diskGet st.disk (get_paper_path st.storage pid ".md") = some sz →
        (handle_download args env st).responses =
          [alreadyPayload (get_paper_path st.storage pid ".md")]) := by
  constructor
  · intro hcs
    constructor
    · intro cs hr
      simp [handle_download, hpid, hcs, hr, noEffects]
    · intro hr
      cases hd : diskGet st.disk (get_paper_path st.storage pid ".md") <;>
        simp [handle_download, hpid, hcs, hr, hd, noEffects]
  · intro hcs sz hd
    simp [handle_download, hpid, hcs, hd, noEffects]

/-- Witness for C5 (amended) at the state holding both the artifact and a
converting record: the registry record wins on a check_status request. -/
theorem handle_download_poll_authority_witness :
    (handle_download argsCheck env0 st3).responses = [statusPayload cs1] :=
  ((handle_download_poll_authority argsCheck env0 st3 "p2" rfl).1 rfl).1 cs1 rfl

/-! Association list helper lemmas shared by the converter claims. -/

/-- Popping a key removes it from lookup. -/
theorem regGet_regPop (r : Registry) (k : String) : regGet (regPop r k) k = none := by
  induction r with
  | nil => rfl
  | cons q rest ih =>
      obtain ⟨a, b⟩ := q
      by_cases h : a = k
      · simpa [regPop, h] using ih
      · simpa [regPop, regGet, h] using ih

/-- Inserting a key makes it the looked-up value. -/
theorem regGet_regInsert_self (r : Registry) (k : String) (v : ConversionStatus) :
    regGet (regInsert r k v) k = some v := by
  induction r with
  | nil => simp [regInsert, regGet]
  | cons e rest ih =>
      obtain ⟨a, b⟩ := e
      by_cases h : a = k
      · subst h
        simp [regInsert, regGet]
      · simp [regInsert, regGet, h, ih]

/-- Updating a key maps the looked-up value. -/
theorem regGet_regUpdate_self (r : Registry) (k : String) (f : ConversionStatus → ConversionStatus) :
    regGet (regUpdate r k f) k = (regGet r k).map f := by
  induction r with
  | nil => rfl
  | cons e rest ih =>
      obtain ⟨a, b⟩ := e
      by_cases h : a = k
      · subst h
        simp [regUpdate, regGet]
      · simp [regUpdate, regGet, h, ih]

/-- Writing one path leaves lookup of a different path unchanged. -/
theorem diskGet_diskInsert_ne (d : Disk) (p q : String) (sz : Nat) (h : p ≠ q) :
    diskGet (diskInsert d p sz) q = diskGet d q := by
  induction d with
  | nil => simp [diskInsert, diskGet, h]
  | cons e rest ih =>
      obtain ⟨a, b⟩ := e
      by_cases he : a = p
      · subst he
        simp [diskInsert, diskGet, h]
      · by_cases hq : a = q <;> simp [diskInsert, diskGet, he, hq, ih, Ne.symm h]

/-- Removing a path removes it from lookup. -/
theorem diskGet_diskRemove_self (d : Disk) (p : String) :
    diskGet (diskRemove d p) p = none := by
  induction d with
  | nil => rfl
  | cons q rest ih =>
      obtain ⟨a, b⟩ := q
      by_cases h : a = p
      · simpa [diskRemove, h] using ih
      · simpa [diskRemove, diskGet, h] using ih

/-- Removing one path leaves lookup of a different path unchanged. -/
theorem diskGet_diskRemove_ne (d : Disk) (p q : String) (h : p ≠ q) :
    diskGet (diskRemove d p) q = diskGet d q := by
  induction d with
  | nil => rfl
  | cons e rest ih =>
      obtain ⟨a, b⟩ := e
      by_cases he : a = p
      · subst he
        simpa [diskRemove, diskGet, h] using ih
      · by_cases hq : a = q <;>
          simp [diskRemove, diskGet, he, hq, ih, Ne.symm h]

/-- The markdown and PDF paths of one paper differ. -/
theorem md_path_ne_pdf_path (storage paper_id : String) :
    get_paper_path storage paper_id ".md" ≠ get_paper_path storage paper_id ".pdf" := by
  intro h
  have hlen := congrArg String.length h
  have h3 : String.length ".md" = 3 := rfl
  have h4 : String.length ".pdf" = 4 := rfl
  simp [get_paper_path, String.length_append, h3, h4] at hlen

/-- C6: convert_pdf_to_markdown is total over every oracle outcome (binary
missing, subprocess raised, any exit code, any output) and, whatever
happened, the finally clause leaves the paper_id absent from the registry;
consequently a subsequent check_status request on the resulting state
falls through to the on-disk check, reporting success when the markdown
artifact exists and unknown otherwise. -/
theorem convert_pdf_to_markdown_cleanup
    (paper_id pdf_path : String) (env : ConvEnv) (st : State) :
    regGet (convert_pdf_to_markdown paper_id pdf_path env st).registry paper_id = none
    ∧ ∀ (args : Args) (henv : Env),
        args.paper_id = some paper_id → args.check_status = true →
        (handle_download args henv
            (State.mk st.storage
              (convert_pdf_to_markdown paper_id pdf_path env st).registry
              (convert_pdf_to_markdown paper_id pdf_path env st).disk)).responses =
          if (diskGet (convert_pdf_to_markdown paper_id pdf_path env st).disk
              (get_paper_path st.storage paper_id ".md")).isSome then
            [readyPayload (get_paper_path st.storage paper_id ".md")]
          else [unknownPayload] := by
  have hnone : regGet (convert_pdf_to_markdown paper_id pdf_path env st).registry paper_id
      = none := regGet_regPop _ _
  refine ⟨hnone, ?_⟩
  intro args henv hpid hcs
  cases hd : diskGet (convert_pdf_to_markdown paper_id pdf_path env st).disk
      (get_paper_path st.storage paper_id ".md") <;>
    simp [handle_download, hpid, hcs, hnone, hd, noEffects]

/-- An oracle under which the unpdf binary is absent. -/
def convEnv0 : ConvEnv := ConvEnv.mk false (RunOutcome.raised "boom") 4

/-- Witness for C6 at a concrete failing conversion: the subsequent
check_status request falls through to the on-disk check. -/
theorem convert_pdf_to_markdown_cleanup_witness :
    (handle_download (Args.mk (some "p1") true "auto") env0
        (State.mk st1.storage
          (convert_pdf_to_markdown "p1" "root/p1.pdf" convEnv0 st1).registry
          (convert_pdf_to_markdown "p1" "root/p1.pdf" convEnv0 st1).disk)).responses =
      if (diskGet (convert_pdf_to_markdown "p1" "root/p1.pdf" convEnv0 st1).disk
          (get_paper_path st1.storage "p1" ".md")).isSome then
        [readyPayload (get_paper_path st1.storage "p1" ".md")]
      else [unknownPayload] :=
  (convert_pdf_to_markdown_cleanup "p1" "root/p1.pdf" convEnv0 st1).2
    (Args.mk (some "p1") true "auto") env0 rfl rfl

/-- C7: when the conversion subprocess exits with code zero and the
destination markdown file exists with non-zero size, the converter records
success before deleting anything: prior to the finally cleanup the
registry state is the success mutation (the record, when present, set to
success with the completion timestamp), the source PDF unlink runs (a
missing PDF is silently accepted by missing_ok), and afterwards the PDF
path is absent from disk while the markdown path still holds the non-zero
size. -/
theorem convert_pdf_to_markdown_success_effects
    (paper_id : String) (env : ConvEnv) (st : State) (r : SubRun) (sz : Nat)
    (hfound : env.unpdfFound = true)
    (hrun : env.run = RunOutcome.completed r)
    (hrc : r.returncode = 0)
    (hmd : diskGet (applyRunOutput st.disk (get_paper_path st.storage paper_id ".md") r.output)
        (get_paper_path st.storage paper_id ".md") = some sz)
    (hsz : sz ≠ 0) :
    (convert_pdf_to_markdown paper_id (get_paper_path st.storage paper_id ".pdf") env st).regBeforeCleanup
        = setSuccess st.registry paper_id env.now
    ∧ (∀ cs, regGet st.registry paper_id = some cs →
        regGet (convert_pdf_to_markdown paper_id (get_paper_path st.storage paper_id ".pdf")
            env st).regBeforeCleanup paper_id
          = some { cs with status := "success", completed_at := some env.now })
    ∧ (convert_pdf_to_markdown paper_id (get_paper_path st.storage paper_id ".pdf")
        env st).pdfDeleted = true
    ∧ diskGet (convert_pdf_to_markdown paper_id (get_paper_path st.storage paper_id ".pdf")
        env st).disk (get_paper_path st.storage paper_id ".pdf") = none
    ∧ diskGet (convert_pdf_to_markdown paper_id (get_paper_path st.storage paper_id ".pdf")
        env st).disk (get_paper_path st.storage paper_id ".md") = some sz := by
  have hbody : convertBody paper_id (get_paper_path st.storage paper_id ".pdf") env st =
      (setSuccess st.registry paper_id env.now,
       diskRemove (applyRunOutput st.disk (get_paper_path st.storage paper_id ".md") r.output)
         (get_paper_path st.storage paper_id ".pdf"), true) := by
    simp [convertBody, hfound, hrun, hrc, hmd, hsz]
  refine ⟨?_, ?_, ?_, ?_, ?_⟩
  · simp [convert_pdf_to_markdown, hbody]
  · intro cs hcs
    simp [convert_pdf_to_markdown, hbody, setSuccess, regGet_regUpdate_self, hcs]
  · simp [convert_pdf_to_markdown, hbody]
  · simp [convert_pdf_to_markdown, hbody, diskGet_diskRemove_self]
  · have hne : get_paper_path st.storage paper_id ".pdf" ≠ get_paper_path st.storage paper_id ".md" :=
      fun h => md_path_ne_pdf_path st.storage paper_id h.symm
    simp [convert_pdf_to_markdown, hbody]
    rw [diskGet_diskRemove_ne _ _ _ hne]
    exact hmd

/-- An oracle whose subprocess completes with exit code zero and writes a
six-byte markdown file. -/
def convEnvOk : ConvEnv := ConvEnv.mk true (RunOutcome.completed (SubRun.mk 0 "" (some 6))) 8

/-- A state with the downloading record for p1 and the transient PDF on
disk, as the handler leaves it when scheduling the conversion. -/
def stPdf : State := State.mk "root" [("p1", cs0)] [("root/p1.pdf", 13)]

/-- Witness for C7 at a concrete successful conversion. -/
theorem convert_pdf_to_markdown_success_effects_witness :
    (convert_pdf_to_markdown "p1" (get_paper_path stPdf.storage "p1" ".pdf") convEnvOk stPdf).regBeforeCleanup
        = setSuccess stPdf.registry "p1" convEnvOk.now
    ∧ (∀ cs, regGet stPdf.registry "p1" = some cs →
        regGet (convert_pdf_to_markdown "p1" (get_paper_path stPdf.storage "p1" ".pdf")
            convEnvOk stPdf).regBeforeCleanup "p1"
          = some { cs with status := "success", completed_at := some convEnvOk.now })
    ∧ (convert_pdf_to_markdown "p1" (get_paper_path stPdf.storage "p1" ".pdf")
        convEnvOk stPdf).pdfDeleted = true
    ∧ diskGet (convert_pdf_to_markdown "p1" (get_paper_path stPdf.storage "p1" ".pdf")
        convEnvOk stPdf).disk (get_paper_path stPdf.storage "p1" ".pdf") = none
    ∧ diskGet (convert_pdf_to_markdown "p1" (get_paper_path stPdf.storage "p1" ".pdf")
        convEnvOk stPdf).disk (get_paper_path stPdf.storage "p1" ".md") = some 6 :=
  convert_pdf_to_markdown_success_effects "p1" convEnvOk stPdf
    (SubRun.mk 0 "" (some 6)) 6 rfl rfl rfl rfl (by decide)

/-- C8: when the subprocess exits with code zero but the destination
markdown file is missing or has size zero, the outcome is a failure:
before the finally cleanup the registry state is the error mutation with
the no-output message and the completion timestamp, the success branch is
not taken (no PDF unlink runs), and the PDF path on disk is untouched. -/
theorem convert_pdf_to_markdown_no_output_failure
    (paper_id : String) (env : ConvEnv) (st : State) (r : SubRun)
    (hfound : env.unpdfFound = true)
    (hrun : env.run = RunOutcome.completed r)
    (hrc : r.returncode = 0)
    (hmd : diskGet (applyRunOutput st.disk (get_paper_path st.storage paper_id ".md") r.output)
            (get_paper_path st.storage paper_id ".md") = none
        ∨ diskGet (applyRunOutput st.disk (get_paper_path st.storage paper_id ".md") r.output)
            (get_paper_path st.storage paper_id ".md") = some 0) :
    (convert_pdf_to_markdown paper_id (get_paper_path st.storage paper_id ".pdf")
        env st).regBeforeCleanup
        = setError st.registry paper_id "unpdf produced no output" env.now
    ∧ (∀ cs, regGet st.registry paper_id = some cs →
        regGet (convert_pdf_to_markdown paper_id (get_paper_path st.storage paper_id ".pdf")
            env st).regBeforeCleanup paper_id
          = some { cs with
                   status := "error",
                   completed_at := some env.now,
                   error := some "unpdf produced no output" })
    ∧ (convert_pdf_to_markdown paper_id (get_paper_path st.storage paper_id ".pdf")
        env st).pdfDeleted = false
    ∧ diskGet (convert_pdf_to_markdown paper_id (get_paper_path st.storage paper_id ".pdf")
        env st).disk (get_paper_path st.storage paper_id ".pdf")
        = diskGet st.disk (get_paper_path st.storage paper_id ".pdf") := by
  have hbody : convertBody paper_id (get_paper_path st.storage paper_id ".pdf") env st =
      (setError st.registry paper_id "unpdf produced no output" env.now,
       applyRunOutput st.disk (get_paper_path st.storage paper_id ".md") r.output, false) := by
    rcases hmd with hmd | hmd <;> simp [convertBody, hfound, hrun, hrc, hmd]
  have hne : get_paper_path st.storage paper_id ".md" ≠ get_paper_path st.storage paper_id ".pdf" :=
    md_path_ne_pdf_path st.storage paper_id
  refine ⟨?_, ?_, ?_, ?_⟩
  · simp [convert_pdf_to_markdown, hbody]
  · intro cs hcs
    simp [convert_pdf_to_markdown, hbody, setError, regGet_regUpdate_self, hcs]
  · simp [convert_pdf_to_markdown, hbody]
  · simp [convert_pdf_to_markdown, hbody]
    cases ho : r.output with
    | none => simp [applyRunOutput]
    | some size => simp [applyRunOutput, diskGet_diskInsert_ne _ _ _ _ hne]

/-- An oracle whose subprocess exits zero yet writes a zero-byte file. -/
def convEnvEmpty : ConvEnv := ConvEnv.mk true (RunOutcome.completed (SubRun.mk 0 "" (some 0))) 8

/-- Witness for C8 at a concrete zero-byte-output conversion. -/
theorem convert_pdf_to_markdown_no_output_failure_witness :
    (convert_pdf_to_markdown "p1" (get_paper_path stPdf.storage "p1" ".pdf")
        convEnvEmpty stPdf).regBeforeCleanup
        = setError stPdf.registry "p1" "unpdf produced no output" convEnvEmpty.now
    ∧ (∀ cs, regGet stPdf.registry "p1" = some cs →
        regGet (convert_pdf_to_markdown "p1" (get_paper_path stPdf.storage "p1" ".pdf")
            convEnvEmpty stPdf).regBeforeCleanup "p1"
          = some { cs with
                   status := "error",
                   completed_at := some convEnvEmpty.now,
                   error := some "unpdf produced no output" })
    ∧ (convert_pdf_to_markdown "p1" (get_paper_path stPdf.storage "p1" ".pdf")
        convEnvEmpty stPdf).pdfDeleted = false
    ∧ diskGet (convert_pdf_to_markdown "p1" (get_paper_path stPdf.storage "p1" ".pdf")
        convEnvEmpty stPdf).disk (get_paper_path stPdf.storage "p1" ".pdf")
        = diskGet stPdf.disk (get_paper_path stPdf.storage "p1" ".pdf") :=
  convert_pdf_to_markdown_no_output_failure "p1" convEnvEmpty stPdf
    (SubRun.mk 0 "" (some 0)) rfl rfl rfl (Or.inr rfl)

/-- C9: a new-download request that reaches the PDF path (format pdf,
which bypasses HTML, or format auto after an HTML failure) and whose
arXiv search yields an empty result set does not raise: the StopIteration
branch returns the structured error payload whose message names the
paper_id and literally contains the words not found. -/
theorem handle_download_paper_not_found
    (args : Args) (env : Env) (st : State) (pid : String)
    (hpid : args.paper_id = some pid)
    (hcs : args.check_status = false)
    (hmd : diskGet st.disk (get_paper_path st.storage pid ".md") = none)
    (hreg : regGet st.registry pid = none)
    (hreach : args.fmt = "pdf"
        ∨ (args.fmt = "auto" ∧ ∀ size, env.html ≠ HtmlOutcome.ok size))
    (hsearch : env.searchFound = false) :
    (handle_download args env st).responses = [notFoundPayload pid]
    ∧ getVal (notFoundPayload pid) "status" = some (JVal.s "error")
    ∧ getVal (notFoundPayload pid) "message"
        = some (JVal.s ("Paper " ++ pid ++ " not found on arXiv"))
    ∧ ∃ pre post, "Paper " ++ pid ++ " not found on arXiv" = pre ++ "not found" ++ post := by
  refine ⟨?_, rfl, rfl, ?_⟩
  · rcases hreach with hf | ⟨hf, hok⟩
    · simp [handle_download, pdfPhase, hpid, hcs, hmd, hreg, hf, hsearch]
    · cases hh : env.html with
      | ok size => exact absurd hh (hok size)
      | httpError code =>
          simp [handle_download, pdfPhase, hpid, hcs, hmd, hreg, hf, hh, hsearch]
      | otherError msg =>
          simp [handle_download, pdfPhase, hpid, hcs, hmd, hreg, hf, hh, hsearch]
  · refine ⟨"Paper " ++ pid ++ " ", " on arXiv", ?_⟩
    simp only [String.append_assoc]
    rfl

/-- An oracle whose arXiv search yields no result. -/
def envNoPaper : Env := Env.mk (HtmlOutcome.httpError 404) 2 false (PdfOutcome.ok 3)

/-- A new-download request for p1 with format pdf. -/
def argsPdf : Args := Args.mk (some "p1") false "pdf"

/-- Witness for C9 at a fresh state with an empty search result. -/
theorem handle_download_paper_not_found_witness :
    (handle_download argsPdf envNoPaper st0).responses = [notFoundPayload "p1"]
    ∧ getVal (notFoundPayload "p1") "status" = some (JVal.s "error")
    ∧ getVal (notFoundPayload "p1") "message"
        = some (JVal.s ("Paper " ++ "p1" ++ " not found on arXiv"))
    ∧ ∃ pre post, "Paper " ++ "p1" ++ " not found on arXiv" = pre ++ "not found" ++ post :=
  handle_download_paper_not_found argsPdf envNoPaper st0 "p1" rfl rfl rfl rfl (Or.inl rfl) rfl

/-- C10: a new-download request that reaches the PDF path and fails before
the conversion task is scheduled (empty search result, or a PDF download
exception) never removes the registry record it inserted: after the error
response the paper_id is still registered with the non-terminal
downloading status, the disk is unchanged and nothing was scheduled, and
every subsequent new-download request for that paper_id returns the stale
downloading status while performing no HTML fetch, no PDF download and no
scheduling, and leaving the registry unchanged again. -/
theorem handle_download_stale_lease
    (args : Args) (env : Env) (st : State) (pid : String)
    (hpid : args.paper_id = some pid)
    (hcs : args.check_status = false)
    (hmd : diskGet st.disk (get_paper_path st.storage pid ".md") = none)
    (hreg : regGet st.registry pid = none)
    (hreach : args.fmt = "pdf"
        ∨ (args.fmt = "auto" ∧ ∀ size, env.html ≠ HtmlOutcome.ok size))
    (hfail : env.searchFound = false ∨ ∃ msg, env.pdfDownload = PdfOutcome.err msg) :
    regGet (handle_download args env st).registry pid
        = some (ConversionStatus.mk pid "downloading" env.now none none)
    ∧ (handle_download args env st).scheduled = none
    ∧ (handle_download args env st).disk = st.disk
    ∧ getVal ((handle_download args env st).responses.headD []) "status"
        = some (JVal.s "error")
    ∧ ∀ (args2 : Args) (env2 : Env),
        args2.paper_id = some pid → args2.check_status = false →
        handle_download args2 env2
            (State.mk st.storage (handle_download args env st).registry
              (handle_download args env st).disk)
          = HandleResult.mk
              [inProgressPayload (ConversionStatus.mk pid "downloading" env.now none none)]
              (handle_download args env st).registry (handle_download args env st).disk
              false false none := by
  have hstep : ∃ hF, handle_download args env st = pdfPhase pid env st hF := by
    rcases hreach with hf | ⟨hf, hok⟩
    · exact ⟨false, by simp [handle_download, hpid, hcs, hmd, hreg, hf]⟩
    · cases hh : env.html with
      | ok size => exact absurd hh (hok size)
      | httpError code =>
          exact ⟨true, by simp [handle_download, hpid, hcs, hmd, hreg, hf, hh]⟩
      | otherError msg =>
          exact ⟨true, by simp [handle_download, hpid, hcs, hmd, hreg, hf, hh]⟩
  obtain ⟨hF, hstep⟩ := hstep
  have hreg2 : (handle_download args env st).registry
      = regInsert st.registry pid (ConversionStatus.mk pid "downloading" env.now none none) := by
    rw [hstep]
    rcases hfail with hs | ⟨msg, hp⟩
    · simp [pdfPhase, hs]
    · cases hs2 : env.searchFound <;> simp [pdfPhase, hs2, hp]
  have hsch : (handle_download args env st).scheduled = none := by
    rw [hstep]
    rcases hfail with hs | ⟨msg, hp⟩
    · simp [pdfPhase, hs]
    · cases hs2 : env.searchFound <;> simp [pdfPhase, hs2, hp]
  have hdisk : (handle_download args env st).disk = st.disk := by
    rw [hstep]
    rcases hfail with hs | ⟨msg, hp⟩
    · simp [pdfPhase, hs]
    · cases hs2 : env.searchFound <;> simp [pdfPhase, hs2, hp]
  have hstat : getVal ((handle_download args env st).responses.headD []) "status"
      = some (JVal.s "error") := by
    rw [hstep]
    rcases hfail with hs | ⟨msg, hp⟩
    · simp [pdfPhase, hs, notFoundPayload, getVal]
    · cases hs2 : env.searchFound <;>
        simp [pdfPhase, hs2, hp, notFoundPayload, genericErrorPayload, getVal]
  have hget : regGet (handle_download args env st).registry pid
      = some (ConversionStatus.mk pid "downloading" env.now none none) := by
    rw [hreg2]
    exact regGet_regInsert_self _ _ _
  refine ⟨hget, hsch, hdisk, hstat, ?_⟩
  intro args2 env2 h1 h2
  rw [hdisk, hreg2]
  have hget2 : regGet (regInsert st.registry pid
        (ConversionStatus.mk pid "downloading" env.now none none)) pid
      = some (ConversionStatus.mk pid "downloading" env.now none none) :=
    regGet_regInsert_self _ _ _
  simp [handle_download, h1, h2, hmd, hget2, noEffects]

/-- Witness for C10 at a fresh state, format pdf, empty search result:
the stale downloading record is still registered afterwards and a second
new-download request reports it without starting new work. -/
theorem handle_download_stale_lease_witness :
    regGet (handle_download argsPdf envNoPaper st0).registry "p1"
        = some (ConversionStatus.mk "p1" "downloading" envNoPaper.now none none)
    ∧ handle_download argsPdf env0
        (State.mk st0.storage (handle_download argsPdf envNoPaper st0).registry
          (handle_download argsPdf envNoPaper st0).disk)
        = HandleResult.mk
            [inProgressPayload (ConversionStatus.mk "p1" "downloading" envNoPaper.now none none)]
            (handle_download argsPdf envNoPaper st0).registry
            (handle_download argsPdf envNoPaper st0).disk
            false false none :=
  ⟨(handle_download_stale_lease argsPdf envNoPaper st0 "p1" rfl rfl rfl rfl
      (Or.inl rfl) (Or.inl rfl)).1,
   (handle_download_stale_lease argsPdf envNoPaper st0 "p1" rfl rfl rfl rfl
      (Or.inl rfl) (Or.inl rfl)).2.2.2.2 argsPdf env0 rfl rfl⟩

end ArxivMcp
